import Mathlib

/-!
Verification development for the KusiPublisher LLM gateway and
response-fidelity pipeline.

The definitions below are a shallow embedding of the Python sources:

* `src/backend/api/llm.py` — class `LLMManager` (`generate_content`, the
  provider dispatch, the retry loop, the in-memory response cache, and the
  function objects defined at lines 104-179);
* `src/backend/modules/humanizer.py` — class `Humanizer` (TTL cache helpers,
  refusal detection inside `_humanize_with_llm`, `_extract_key_terms`,
  `_is_valid_output`);
* `src/backend/modules/voice_analyzer.py` — the JSON-extraction step of
  `analyze_voice`;
* `src/backend/modules/platform_agents.py` — the JSON-extraction and
  post-processing steps of `optimize_for_platform`.

Modelling conventions: machine floats that only ever hold small decimal
configuration values (0.5, 0.6, 0.7) are embedded as rationals; the
`temperature` float sent to a provider is embedded as its formatted string
(it is only ever interpolated into the cache key); wall-clock instants are
embedded as natural-number seconds; an HTTP exchange is embedded as a
`ProviderResponse` value supplied by an environment function `responses :
Nat → ProviderResponse` giving the outcome of each successive attempt.
-/

/-! ### llm.py: provider responses and exceptions -/

/-- Outcome of one HTTP exchange as `generate_content` observes it
(llm.py:50-78): either a transport-layer failure (`httpx.ReadTimeout` /
`httpx.ConnectError`, carrying its `str(e)` text), or a response with a
status code, a flag for whether the provider-specific success shape is
present (`"candidates"` for gemini, `"choices"` for openai), the extracted
text on success, and the provider error message
(`result.get("error").get("message", ...)`). -/
inductive ProviderResponse
  | transport (msg : String)
  | http (status : Nat) (hasSuccessShape : Bool) (text : String) (errMsg : String)
deriving DecidableEq

/-- An exception caught by the `except` clause at llm.py:84: either an httpx
transport error or a `fastapi.HTTPException`. -/
inductive CaughtErr
  | transportErr (msg : String)
  | httpEx (status : Nat) (detail : String)
deriving DecidableEq

/-- A Python exception escaping `generate_content` (llm.py). -/
inductive PyError
  | httpException (status : Nat) (detail : String)
  | httpxStatusError (status : Nat)
  | keyError
  | unboundLocalError (name : String)
  | valueError (msg : String)
  | attributeError
deriving DecidableEq

/-- Result of one iteration of the try-block (llm.py:47-82): a successful
content string, an exception caught by the `except` tuple at llm.py:84, or
an exception that is not in that tuple and therefore escapes the loop. -/
inductive TryOutcome
  | ok (text : String)
  | caught (e : CaughtErr)
  | uncaught (e : PyError)
deriving DecidableEq

/-- The gemini branch of the try-block (llm.py:51-71): a 5xx status raises
`HTTPException(status, result.error.message)`; a response without a
`"candidates"` key raises `HTTPException(400, "Gemini API Error: ...")`;
otherwise the candidate text is returned. -/
def geminiTry : ProviderResponse → TryOutcome
  | .transport m => .caught (.transportErr m)
  | .http status hasCandidates text errMsg =>
    if 500 ≤ status then .caught (.httpEx status errMsg)
    else if !hasCandidates then .caught (.httpEx 400 ("Gemini API Error: " ++ errMsg))
    else .ok text

/-- The openai branch of the try-block (llm.py:73-78):
`response.raise_for_status()` raises `httpx.HTTPStatusError` on any 4xx/5xx
status — an exception NOT in the `except` tuple at llm.py:84, so it escapes
`generate_content` uncaught; a 2xx body without the `"choices"` shape raises
an uncaught `KeyError`; otherwise the message content is returned. -/
def openaiTry : ProviderResponse → TryOutcome
  | .transport m => .caught (.transportErr m)
  | .http status hasChoices text _ =>
    if 400 ≤ status then .uncaught (.httpxStatusError status)
    else if !hasChoices then .uncaught .keyError
    else .ok text

/-- One iteration of the try-block for the active provider. For any provider
other than `"gemini"` and `"openai"` no dispatch branch matches (llm.py has
no `anthropic` branch), no HTTP request is issued, and the assignment
`self.cache[cache_key] = content` at llm.py:81 raises `UnboundLocalError`
(`content` was never assigned) — an exception not caught at llm.py:84. -/
def attemptTry (active : String) (r : ProviderResponse) : TryOutcome :=
  if active = "gemini" then geminiTry r
  else if active = "openai" then openaiTry r
  else .uncaught (.unboundLocalError "content")

/-- Number of HTTP requests one iteration of the loop body issues: exactly
one `client.post` for the gemini and openai branches, none otherwise. -/
def attemptCalls (active : String) : Nat :=
  if active = "gemini" ∨ active = "openai" then 1 else 0

/-- The retryability test in the except clause (llm.py:85-90): any
`HTTPException` is retryable exactly when its status is 500, 503 or 504;
transport errors are always retryable. -/
def is_retryable : CaughtErr → Bool
  | .transportErr _ => true
  | .httpEx s _ => s = 500 || s = 503 || s = 504

/-- The terminal raise (llm.py:97-102): an `HTTPException` is re-raised
as-is; an httpx transport error is wrapped as
`HTTPException(504, "Gateway Timeout: " + str(e))`. -/
def finalRaise : CaughtErr → PyError
  | .transportErr m => .httpException 504 ("Gateway Timeout: " ++ m)
  | .httpEx s d => .httpException s d

/-- `max_retries = 5` (llm.py:44). -/
def max_retries : Nat := 5

/-- `base_delay = 3` seconds (llm.py:45). -/
def base_delay : Nat := 3

/-- State of an `LLMManager` instance (llm.py:9-29): the provider registry
(name → API key, `None` when the environment variable is unset), the active
provider name, and the response cache — a bare dict from cache-key strings
to content strings, carrying no timestamps. -/
structure LLMState where
  providers : List (String × Option String)
  active_provider : String
  cache : List (String × String)
deriving DecidableEq

/-- Python truthiness of the configuration check `not provider or not
provider["api_key"]` (llm.py:40): the provider must be registered and its
key must be neither `None` nor the empty string. -/
def providerConfigured (providers : List (String × Option String)) (name : String) : Bool :=
  match providers.lookup name with
  | some (some k) => !(k == "")
  | _ => false

/-- The cache key f-string (llm.py:35): only the first 100 characters of the
prompt are interpolated. -/
def cache_key (active prompt : String) (maxTokens : Nat) (temperature : String) : String :=
  active ++ ":" ++ prompt.take 100 ++ ":" ++ toString maxTokens ++ ":" ++ temperature

/-- Dict assignment `self.cache[cache_key] = content` (llm.py:81) on an
association list. -/
def cacheInsert (cache : List (String × String)) (key v : String) : List (String × String) :=
  (key, v) :: cache.filter (fun kv => !(kv.1 == key))

/-- What a call of `generate_content` produces: a returned string, a raised
exception, or the implicit `None` were the loop ever to complete without
returning (unreachable for `max_retries > 0`, but part of the function). -/
inductive GenResult
  | text (s : String)
  | raised (e : PyError)
  | noneReturn
deriving DecidableEq

/-- Observable outcome of one `generate_content` call: its result, the
number of HTTP requests issued, the list of back-off sleeps performed (in
seconds, in order), and the manager state afterwards. -/
structure GenOutcome where
  result : GenResult
  calls : Nat
  sleeps : List Nat
  state : LLMState
deriving DecidableEq

/-- The retry loop `for attempt in range(max_retries)` (llm.py:46-102),
given the attempt counter and the remaining iterations (`fuel`, initially
`max_retries`). On success the content is cached and returned. On a caught
exception: if retryable and `attempt < max_retries - 1`, sleep
`base_delay * 2 ** attempt` and continue; otherwise raise the terminal
error. An uncaught exception escapes immediately. -/
def retryLoop (st : LLMState) (key : String) (responses : Nat → ProviderResponse) :
    Nat → Nat → GenOutcome
  | _, 0 => ⟨.noneReturn, 0, [], st⟩
  | attempt, fuel + 1 =>
    let c := attemptCalls st.active_provider
    match attemptTry st.active_provider (responses attempt) with
    | .ok text =>
      ⟨.text text, c, [], ⟨st.providers, st.active_provider, cacheInsert st.cache key text⟩⟩
    | .uncaught e => ⟨.raised e, c, [], st⟩
    | .caught e =>
      if is_retryable e = true ∧ attempt < max_retries - 1 then
        let rest := retryLoop st key responses (attempt + 1) fuel
        ⟨rest.result, c + rest.calls, base_delay * 2 ^ attempt :: rest.sleeps, rest.state⟩
      else ⟨.raised (finalRaise e), c, [], st⟩

/-- `LLMManager.generate_content` (llm.py:31-102): check the cache first and
return a hit immediately (no time/TTL condition — llm.py:36 only tests key
membership); then check the provider configuration; then run the retry
loop. -/
def generate_content (st : LLMState) (prompt : String) (maxTokens : Nat)
    (temperature : String) (responses : Nat → ProviderResponse) : GenOutcome :=
  let key := cache_key st.active_provider prompt maxTokens temperature
  match st.cache.lookup key with
  | some v => ⟨.text v, 0, [], st⟩
  | none =>
    if providerConfigured st.providers st.active_provider then
      retryLoop st key responses 0 max_retries
    else
      ⟨.raised (.valueError ("Provider " ++ st.active_provider ++ " not configured properly")),
        0, [], st⟩

/-- Scenario for the LLM response cache and the passage of time: a first
`generate_content` succeeds and caches `"v"`; `ageSeconds` seconds later the
same request is issued again. llm.py:29 initialises the cache as a bare dict
and llm.py:35-37 look keys up without any timestamp, so `ageSeconds` cannot
influence the lookup — the second call returns the cached text no matter how
old it is (its own provider environment is a transport failure, so any
non-cached path would not produce `"v"`). -/
def llmGenerateAfterDelay (ageSeconds : Nat) : GenResult :=
  let st : LLMState := ⟨[("gemini", some "k")], "gemini", []⟩
  let o1 := generate_content st "p" 1000 "0.7" (fun _ => .http 200 true "v" "")
  (generate_content o1.state "p" 1000 "0.7" (fun _ => .transport "later")).result

/-- Attribute names bound on class `LLMManager` itself. Because the `def`
statements at llm.py:104-179 (`analyze_text`, `switch_provider`,
`get_available_providers`) are indented inside the body of
`generate_content`, the class body binds only these two names. -/
def llmManagerClassMethods : List String := ["__init__", "generate_content"]

/-- Instance attributes assigned by `__init__` (llm.py:10-29). -/
def llmManagerInstanceAttrs : List String := ["providers", "active_provider", "cache"]

/-- The `switch_provider` function object as written (llm.py:170-175): a
registered name becomes the new `active_provider`; an unregistered name
raises `ValueError("Unknown provider: ...")`. -/
def switch_provider (providers : List String) (name : String) : Except String String :=
  if name ∈ providers then .ok name
  else .error ("Unknown provider: " ++ name)

/-! ### humanizer.py: TTL cache, refusal detection, output validation -/

/-- `del self._cache[key]` (humanizer.py:123) on an association list keyed
by strings (a Python dict holds each key at most once). -/
def eraseKey {α : Type} (cache : List (String × α × Nat)) (key : String) :
    List (String × α × Nat) :=
  cache.filter (fun e => !(e.1 == key))

/-- `Humanizer._get_cache` (humanizer.py:112-125). The cache maps keys to
`(data, timestamp)` pairs; `now` and timestamps are in seconds. An entry is
returned while `age < ttl`; otherwise the entry is deleted and the lookup is
a miss. Returns the looked-up value and the cache afterwards. -/
def humanizer_get_cache {α : Type} (cache : List (String × α × Nat)) (ttl now : Nat)
    (key : String) : Option α × List (String × α × Nat) :=
  match cache.lookup key with
  | some (d, ts) =>
    if now - ts < ttl then (some d, cache)
    else (none, eraseKey cache key)
  | none => (none, cache)

/-- `Humanizer._set_cache` without the high-water cleanup branch
(humanizer.py:127-129): store `(data, now)` under `key`. -/
def humanizer_set_cache {α : Type} (cache : List (String × α × Nat)) (key : String)
    (d : α) (now : Nat) : List (String × α × Nat) :=
  (key, d, now) :: eraseKey cache key

/-- `Humanizer._cleanup_cache` (humanizer.py:135-146): delete every entry
with `now - ts > ttl` (note the strict comparison in the source). -/
def humanizer_cleanup_cache {α : Type} (cache : List (String × α × Nat)) (ttl now : Nat) :
    List (String × α × Nat) :=
  cache.filter (fun e => !(ttl < now - e.2.2))

/-- Default `cache_ttl` (humanizer.py:78). -/
def cache_ttl_default : Nat := 3600

/-- `Humanizer.REFUSAL_PATTERNS` (humanizer.py:41-53), verbatim: a list of
Spanish refusal phrases. -/
def REFUSAL_PATTERNS : List String :=
  ["lo siento", "no puedo", "como modelo", "como ia", "como asistente",
   "no está permitido", "va en contra de", "política de uso", "no soy capaz",
   "mis directrices", "contenido inapropiado"]

/-- The Python substring test `pat in s` on strings, as infix containment of
the character lists. -/
def pyIn (pat s : String) : Bool := decide (pat.data <:+: s.data)

/-- Python `s.lower()`, character by character (`Char.toLower` lowers the
ASCII range; every refusal pattern and stopword is already lower-case). -/
def pyLower (s : String) : String := String.mk (s.data.map Char.toLower)

/-- Python `s.strip()`: remove leading and trailing whitespace. -/
def pyStrip (s : String) : String :=
  String.mk (((s.data.dropWhile Char.isWhitespace).reverse.dropWhile Char.isWhitespace).reverse)

/-- The refusal test in `_humanize_with_llm` (humanizer.py:310-311):
`any(pattern in response.lower() for pattern in REFUSAL_PATTERNS)`. -/
def isRefusal (response : String) : Bool :=
  REFUSAL_PATTERNS.any (fun p => pyIn p (pyLower response))

/-- The response validation tail of `_humanize_with_llm`
(humanizer.py:305-315): an empty/whitespace response raises
`ValueError("LLM returned empty or invalid response")`; a response matching
a refusal pattern raises `ValueError("LLM refused to process")`; otherwise
the stripped response is returned. `humanize` (humanizer.py:233-241)
converts either raise into a failure result whose `reason` is the message. -/
def humanizeResponseGuard (response : String) : Except String String :=
  if pyStrip response = "" then .error "LLM returned empty or invalid response"
  else if isRefusal response then .error "LLM refused to process"
  else .ok (pyStrip response)

/-- `Humanizer.STOPWORDS` (humanizer.py:56-60), verbatim. -/
def STOPWORDS : List String :=
  ["el", "la", "los", "las", "un", "una", "unos", "unas",
   "de", "del", "a", "al", "en", "con", "por", "para",
   "y", "o", "pero", "si", "no", "que", "como", "es", "son"]

/-- Helper for Python `s.split()`: walk the characters accumulating the
current word; whitespace ends a word, and empty pieces are not produced. -/
def splitWsChars : List Char → List Char → List String
  | [], acc => if acc = [] then [] else [String.mk acc.reverse]
  | c :: rest, acc =>
    if c.isWhitespace then
      (if acc = [] then [] else [String.mk acc.reverse]) ++ splitWsChars rest []
    else splitWsChars rest (c :: acc)

/-- Python `s.split()`: split on whitespace runs, discarding empty pieces. -/
def pySplitWs (s : String) : List String := splitWsChars s.data []

/-- `set(text.lower().split())` as a duplicate-free list. -/
def wordSet (s : String) : List String := (pySplitWs (pyLower s)).dedup

/-- `Humanizer._extract_key_terms` (humanizer.py:149-154): lower-case words
that are neither stopwords nor of length ≤ 2, as a set. -/
def extract_key_terms (s : String) : List String :=
  ((pySplitWs (pyLower s)).filter (fun w => decide (w ∉ STOPWORDS ∧ 2 < w.length))).dedup

/-- Cardinality of the intersection of two word sets represented as
duplicate-free lists. -/
def interCard (a b : List String) : Nat := (a.filter (fun x => b.contains x)).length

/-- `Humanizer._is_valid_output` (humanizer.py:334-379) with the three
thresholds as parameters (constructor defaults: `min_content_ratio = 0.6`,
`min_overlap = 0.5`, `min_key_terms = 0.7`, humanizer.py:72-74). Floats are
embedded as rationals. Note the fallback when the source has no key terms
(humanizer.py:363-365) uses the strict comparison
`general_overlap > self.min_overlap`. -/
def is_valid_output (minContentRatio minOverlap minKeyTerms : ℚ)
    (original humanized : String) : Bool :=
  if pyStrip humanized = "" then false
  else if (if 0 < original.length then
      ((humanized.length : ℚ) / (original.length : ℚ)) else 0) < minContentRatio then false
  else
    let originalWords := wordSet original
    let humanizedWords := wordSet humanized
    if originalWords = [] then false
    else
      let generalOverlap : ℚ :=
        (interCard originalWords humanizedWords : ℚ) / (originalWords.length : ℚ)
      if generalOverlap < minOverlap then false
      else
        let originalKeys := extract_key_terms original
        let humanizedKeys := extract_key_terms humanized
        if originalKeys = [] then decide (minOverlap < generalOverlap)
        else
          let keyOverlap : ℚ :=
            (interCard originalKeys humanizedKeys : ℚ) / (originalKeys.length : ℚ)
          if keyOverlap < minKeyTerms then false else true

/-! ### JSON values and a model of `json.loads` -/

/-- Parsed JSON values. Non-integer numeric literals are kept as their raw
text in `numRaw` (no claim in this development produces one). -/
inductive Json
  | null
  | boolean (b : Bool)
  | num (n : Int)
  | numRaw (lit : String)
  | str (s : String)
  | arr (elems : List Json)
  | obj (fields : List (String × Json))

/-- JSON whitespace skip (space, tab, newline, carriage return). -/
def skipWs : List Char → List Char
  | c :: cs => if c = ' ' ∨ c = '\t' ∨ c = '\n' ∨ c = '\r' then skipWs cs else c :: cs
  | [] => []

/-- Parse the body of a JSON string after the opening quote, handling the
single-character escapes (the `\uXXXX` form is outside this model). Returns
the string and the remaining characters after the closing quote. -/
def parseStringBody : Nat → List Char → List Char → Option (String × List Char)
  | 0, _, _ => none
  | _, [], _ => none
  | fuel + 1, c :: rest, acc =>
    if c = '"' then some (String.mk acc.reverse, rest)
    else if c = '\\' then
      match rest with
      | [] => none
      | e :: rest2 =>
        let dec : Option Char :=
          if e = 'n' then some '\n' else if e = 't' then some '\t'
          else if e = 'r' then some '\r' else if e = '"' then some '"'
          else if e = '\\' then some '\\' else if e = '/' then some '/'
          else if e = 'b' then some (Char.ofNat 8) else if e = 'f' then some (Char.ofNat 12)
          else none
        match dec with
        | some d => parseStringBody fuel rest2 (d :: acc)
        | none => none
    else parseStringBody fuel rest (c :: acc)

/-- Split a leading run of decimal digits. -/
def takeDigits : List Char → List Char × List Char
  | c :: cs =>
    if '0' ≤ c ∧ c ≤ '9' then
      let p := takeDigits cs
      (c :: p.1, p.2)
    else ([], c :: cs)
  | [] => ([], [])

/-- Digits to a natural number. -/
def digitsToNat (ds : List Char) : Nat := ds.foldl (fun n c => 10 * n + (c.toNat - 48)) 0

/-- Characters that may continue a non-integer JSON numeric literal. -/
def numContChar (c : Char) : Bool :=
  ('0' ≤ c && c ≤ '9') || c = '.' || c = 'e' || c = 'E' || c = '+' || c = '-'

/-- Parse a JSON number. Integers become `Json.num`; a literal continuing
with `.`/`e`/`E` is kept raw as `Json.numRaw`. -/
def parseNumber (cs : List Char) : Option (Json × List Char) :=
  let neg := match cs with | '-' :: _ => true | _ => false
  let cs1 := match cs with | '-' :: t => t | _ => cs
  let p := takeDigits cs1
  if p.1 = [] then none
  else
    match p.2 with
    | c :: _ =>
      if c = '.' ∨ c = 'e' ∨ c = 'E' then
        let tail := p.2.takeWhile numContChar
        let restAfter := p.2.dropWhile numContChar
        some (.numRaw (String.mk ((if neg then ['-'] else []) ++ p.1 ++ tail)), restAfter)
      else
        some (.num (if neg then -(digitsToNat p.1 : Int) else (digitsToNat p.1 : Int)), p.2)
    | [] => some (.num (if neg then -(digitsToNat p.1 : Int) else (digitsToNat p.1 : Int)), [])

mutual

/-- Parse one JSON value; fuel bounds the nesting recursion. -/
def parseValue : Nat → List Char → Option (Json × List Char)
  | 0, _ => none
  | fuel + 1, cs0 =>
    match skipWs cs0 with
    | [] => none
    | '{' :: rest =>
      (match skipWs rest with
       | '}' :: r2 => some (.obj [], r2)
       | _ => parseMembers fuel rest [])
    | '[' :: rest =>
      (match skipWs rest with
       | ']' :: r2 => some (.arr [], r2)
       | _ => parseElements fuel rest [])
    | '"' :: rest =>
      (match parseStringBody (rest.length + 1) rest [] with
       | some (s, r) => some (.str s, r)
       | none => none)
    | 't' :: rest =>
      if rest.take 3 = ['r', 'u', 'e'] then some (.boolean true, rest.drop 3) else none
    | 'f' :: rest =>
      if rest.take 4 = ['a', 'l', 's', 'e'] then some (.boolean false, rest.drop 4) else none
    | 'n' :: rest =>
      if rest.take 3 = ['u', 'l', 'l'] then some (.null, rest.drop 3) else none
    | cs => parseNumber cs

/-- Parse the members of a JSON object after its opening brace. -/
def parseMembers : Nat → List Char → List (String × Json) → Option (Json × List Char)
  | 0, _, _ => none
  | fuel + 1, cs, acc =>
    match skipWs cs with
    | '"' :: rest =>
      (match parseStringBody (rest.length + 1) rest [] with
       | some (k, r1) =>
         (match skipWs r1 with
          | ':' :: r2 =>
            (match parseValue fuel r2 with
             | some (v, r3) =>
               (match skipWs r3 with
                | ',' :: r4 => parseMembers fuel r4 (acc ++ [(k, v)])
                | '}' :: r4 => some (.obj (acc ++ [(k, v)]), r4)
                | _ => none)
             | none => none)
          | _ => none)
       | none => none)
    | _ => none

/-- Parse the elements of a JSON array after its opening bracket. -/
def parseElements : Nat → List Char → List Json → Option (Json × List Char)
  | 0, _, _ => none
  | fuel + 1, cs, acc =>
    match parseValue fuel cs with
    | some (v, r) =>
      (match skipWs r with
       | ',' :: r2 => parseElements fuel r2 (acc ++ [v])
       | ']' :: r2 => some (.arr (acc ++ [v]), r2)
       | _ => none)
    | none => none

end

/-- Model of Python `json.loads`: parse one value and require only
whitespace to remain, else fail (`raise JSONDecodeError` — e.g. "Extra
data" when trailing characters follow the value). -/
def json_loads (s : String) : Option Json :=
  match parseValue (s.length + 1) s.data with
  | some (v, rest) => if skipWs rest = [] then some v else none
  | none => none

/-! ### voice_analyzer.py and platform_agents.py: extraction from model output -/

/-- Index of the first occurrence of a character. -/
def firstIndexOf (c : Char) (cs : List Char) : Option Nat := cs.findIdx? (fun x => x == c)

/-- Index of the last occurrence of a character. -/
def lastIndexOf (c : Char) (cs : List Char) : Option Nat :=
  match (cs.reverse).findIdx? (fun x => x == c) with
  | some i => some (cs.length - 1 - i)
  | none => none

/-- The greedy search at voice_analyzer.py:63 for the pattern of an opening
brace, any characters (DOTALL), and a closing brace: it matches from the
first opening brace to the last closing brace, inclusive, when the latter
comes after the former. -/
def regexBraceGreedy (s : String) : Option String :=
  match firstIndexOf '{' s.data, lastIndexOf '}' s.data with
  | some i, some j => if i < j then some (String.mk ((s.data.drop i).take (j - i + 1))) else none
  | _, _ => none

/-- The JSON-extraction step of `analyze_voice` (voice_analyzer.py:61-69):
parse the greedy brace match if any; on no match or any parse failure, fall
back to wrapping the whole text under `"detailed_analysis"`. -/
def analyze_voice_parse (analysis : String) : Json :=
  match regexBraceGreedy analysis with
  | some sub =>
    match json_loads sub with
    | some v => v
    | none => .obj [("detailed_analysis", .str analysis)]
  | none => .obj [("detailed_analysis", .str analysis)]

/-- Smallest index at which `pat` occurs in `cs`. -/
def findSubIdx (pat : List Char) (cs : List Char) : Option Nat :=
  (List.range (cs.length + 1)).find? (fun i => pat.isPrefixOf (cs.drop i))

/-- The lazy fenced-block search used at platform_agents.py:143 and 172: the
earliest occurrence of a "```json" fence opening (followed by a newline)
that has a closing "```" after it; the captured group is the text strictly
between the two markers. -/
def regexFenceLazy (s : String) : Option String :=
  match (List.range (s.data.length + 1)).find? (fun i =>
      (("```json\n".data).isPrefixOf (s.data.drop i)) &&
      (findSubIdx ("```".data) (s.data.drop (i + 8))).isSome) with
  | some i =>
    (match findSubIdx ("```".data) (s.data.drop (i + 8)) with
     | some j => some (String.mk ((s.data.drop (i + 8)).take j))
     | none => none)
  | none => none

/-- The lazy brace search at platform_agents.py:146: an opening brace, a
minimal run of characters, and the next closing brace; `group(1)` is the
run strictly between the braces — the braces themselves are NOT captured. -/
def regexBraceLazyGroup (s : String) : Option String :=
  match firstIndexOf '{' s.data with
  | some i =>
    (match firstIndexOf '}' (s.data.drop (i + 1)) with
     | some k => some (String.mk ((s.data.drop (i + 1)).take k))
     | none => none)
  | none => none

/-- The fence-wrapper pre-processing at platform_agents.py:130-133: when the
stripped response both starts and ends with "```", cut three characters
from each end, strip, and drop a leading "json" tag. -/
def stripFenceWrapper (t : String) : String :=
  let st := pyStrip t
  if (("```".data).isPrefixOf st.data) && (("```".data).isSuffixOf st.data) then
    let u := pyStrip (String.mk ((st.data.drop 3).take (st.data.length - 6)))
    if ("json".data).isPrefixOf u.data then pyStrip (String.mk (u.data.drop 4)) else u
  else t

/-- The first extraction pass of `optimize_for_platform`
(platform_agents.py:140-166), producing `(optimized_content,
explanations)`. A fenced block is preferred; otherwise the lazy brace
group. A `json.loads` failure or a non-dict parse lands in the
corresponding `except` branch and falls back to the raw text. (The source
interpolates the Python exception text into the fallback explanation; this
model keeps the fixed message prefix only.) -/
def platformFirstPass (response_text : String) : Json × Json :=
  let groupStr : Option String :=
    match regexFenceLazy response_text with
    | some g => some g
    | none => regexBraceLazyGroup response_text
  match groupStr with
  | some json_str =>
    match json_loads json_str with
    | some (.obj fields) =>
      (((fields.lookup "optimized_content").getD (.str response_text)),
       ((fields.lookup "explanations").getD (.str "No se proporcionaron explicaciones.")))
    | some _ => (.str response_text, .str "Error inesperado al procesar")
    | none => (.str response_text, .str "Fallo al decodificar JSON")
  | none =>
    (.str response_text, .str "No se encontró JSON estructurado en la respuesta.")

/-- The post-processing block of `optimize_for_platform`
(platform_agents.py:168-189). Only a string `optimized_content` is
re-examined: a fenced block inside it is parsed (only `JSONDecodeError` is
caught there — `.get` on a non-dict raises an uncaught `AttributeError`);
failing that, a string that starts with an opening brace and ends with a
closing brace is parsed the same way; anything else is kept as-is. -/
def platformPostProcess (oc ex : Json) : Except PyError (Json × Json) :=
  match oc with
  | .str s =>
    (match regexFenceLazy s with
     | some g =>
       (match json_loads g with
        | some (.obj fields) =>
          .ok (((fields.lookup "optimized_content").getD (.str s)),
               ((fields.lookup "explanations").getD ex))
        | some _ => .error .attributeError
        | none => .ok (.str (pyStrip g), ex))
     | none =>
       let ss := pyStrip s
       if (ss.data.head? == some '{') && (ss.data.getLast? == some '}') then
         match json_loads s with
         | some (.obj fields) =>
           .ok (((fields.lookup "optimized_content").getD (.str s)),
                ((fields.lookup "explanations").getD ex))
         | some _ => .error .attributeError
         | none => .ok (.str s, ex)
       else .ok (.str s, ex))
  | _ => .ok (oc, ex)

/-- The full JSON-processing pipeline of `optimize_for_platform`
(platform_agents.py:128-189) applied to a raw model response. -/
def optimize_for_platform_parse (raw : String) : Except PyError (Json × Json) :=
  let response_text := stripFenceWrapper raw
  let p := platformFirstPass response_text
  platformPostProcess p.1 p.2

/-! ### Helper lemmas -/

/-- When every attempt of the retry loop lands in the except clause with the
same retryable error and each attempt issues one HTTP request, the loop
performs all five attempts, sleeps the four back-off delays, raises the
terminal error for the last failure, and leaves the state untouched. -/
theorem retryLoop_uniform_caught (st : LLMState) (key : String)
    (responses : Nat → ProviderResponse) (e : CaughtErr)
    (he : ∀ i, i < 5 → attemptTry st.active_provider (responses i) = .caught e)
    (hr : is_retryable e = true) (hc : attemptCalls st.active_provider = 1) :
    retryLoop st key responses 0 5 = ⟨.raised (finalRaise e), 5, [3, 6, 12, 24], st⟩ := by
  have h0 := he 0 (by norm_num)
  have h1 := he 1 (by norm_num)
  have h2 := he 2 (by norm_num)
  have h3 := he 3 (by norm_num)
  have h4 := he 4 (by norm_num)
  show retryLoop st key responses 0 (Nat.succ 4) = _
  simp only [retryLoop, h0, h1, h2, h3, h4, hr, hc, max_retries, base_delay]
  norm_num

/-- A text with a nonempty word set is nonempty. -/
theorem len_pos_of_wordSet_ne (original : String) (h : wordSet original ≠ []) :
    0 < original.length := by
  rcases original with ⟨data⟩
  cases data with
  | nil => exact absurd rfl h
  | cons c cs => simp [String.length]

/-- Deleting a key from an association list makes its lookup a miss. -/
theorem lookup_eraseKey {α : Type} (cache : List (String × α × Nat)) (key : String) :
    (eraseKey cache key).lookup key = none := by
  induction cache with
  | nil => rfl
  | cons e rest ih =>
    by_cases h : e.1 = key
    · simpa [eraseKey, List.filter_cons, h] using ih
    · have hb : (e.1 == key) = false := by simpa using h
      simp [eraseKey, List.filter_cons, hb, List.lookup] at ih ⊢
      have hb2 : (key == e.1) = false := by
        simp only [beq_eq_false_iff_ne] at hb ⊢
        exact fun hk => hb hk.symm
      simp [hb2]
      simpa [eraseKey] using ih

/-! ### C1: retry schedule and terminal error on exhausted server errors -/

set_option maxRecDepth 8000 in
/-- C1 (counterexample): with the default policy and every provider call
failing with a retryable 500 ServerError, `generate_content` does make 5
calls with sleeps 3s, 6s, 12s, 24s, but the terminal failure is the last
ServerError re-raised as-is (`HTTPException(500, ...)`) — NOT a
GatewayTimeout (504) wrapping it, contrary to the claim. -/
theorem c1_counterexample_exhaustion_reraises_server_error :
    (generate_content ⟨[("gemini", some "k")], "gemini", []⟩ "p" 1000 "0.7"
        (fun _ => ProviderResponse.http 500 false "" "boom")).result =
      .raised (.httpException 500 "boom") ∧
    (generate_content ⟨[("gemini", some "k")], "gemini", []⟩ "p" 1000 "0.7"
        (fun _ => ProviderResponse.http 500 false "" "boom")).result ≠
      .raised (.httpException 504 "Gateway Timeout: boom") ∧
    (generate_content ⟨[("gemini", some "k")], "gemini", []⟩ "p" 1000 "0.7"
        (fun _ => ProviderResponse.http 500 false "" "boom")).calls = 5 ∧
    (generate_content ⟨[("gemini", some "k")], "gemini", []⟩ "p" 1000 "0.7"
        (fun _ => ProviderResponse.http 500 false "" "boom")).sleeps = [3, 6, 12, 24] := by
  refine ⟨by decide, by decide, by decide, by decide⟩

/-- C1 (amended): with the policy hard-coded in `generate_content`
(`max_retries = 5`, `base_delay = 3`, multiplier 2), when every provider
call fails with the same retryable ServerError (status 500, 503 or 504) the
function makes exactly 5 provider calls with sleeps of 3s, 6s, 12s and 24s
between consecutive attempts (no sleep after the final attempt), and then
fails by re-raising the last ServerError itself; it synthesizes the 504
"Gateway Timeout" error wrapping the last failure only when every call
fails with a transport error. Nothing is cached on failure. -/
theorem c1_amended_retry_schedule_and_terminal_error
    (st : LLMState) (prompt temp : String) (mt : Nat)
    (hactive : st.active_provider = "gemini")
    (hconf : providerConfigured st.providers "gemini" = true)
    (hmiss : st.cache.lookup (cache_key "gemini" prompt mt temp) = none) :
    (∀ (responses : Nat → ProviderResponse) (s : Nat) (c : Bool) (t m : String),
      (s = 500 ∨ s = 503 ∨ s = 504) →
      (∀ i, i < 5 → responses i = ProviderResponse.http s c t m) →
      generate_content st prompt mt temp responses =
        ⟨.raised (.httpException s m), 5, [3, 6, 12, 24], st⟩) ∧
    (∀ (responses : Nat → ProviderResponse) (m : String),
      (∀ i, i < 5 → responses i = ProviderResponse.transport m) →
      generate_content st prompt mt temp responses =
        ⟨.raised (.httpException 504 ("Gateway Timeout: " ++ m)), 5, [3, 6, 12, 24], st⟩) := by
  constructor
  · intro responses s c t m hs hresp
    have hloop := retryLoop_uniform_caught st (cache_key "gemini" prompt mt temp) responses
      (.httpEx s m)
      (by
        intro i hi
        rw [hresp i hi, hactive]
        have h500 : 500 ≤ s := by rcases hs with rfl | rfl | rfl <;> norm_num
        simp [attemptTry, geminiTry, h500])
      (by rcases hs with rfl | rfl | rfl <;> rfl)
      (by simp [attemptCalls, hactive])
    simp only [generate_content, hactive, hmiss, hconf, if_true, max_retries]
    rw [hloop]
    rfl
  · intro responses m hresp
    have hloop := retryLoop_uniform_caught st (cache_key "gemini" prompt mt temp) responses
      (.transportErr m)
      (by
        intro i hi
        rw [hresp i hi, hactive]
        simp [attemptTry, geminiTry])
      rfl
      (by simp [attemptCalls, hactive])
    simp only [generate_content, hactive, hmiss, hconf, if_true, max_retries]
    rw [hloop]
    rfl

set_option maxRecDepth 8000 in
/-- C1 (witness): the amended theorem at a concrete state, a 503
ServerError on every attempt. -/
theorem c1_amended_witness :
    generate_content ⟨[("gemini", some "k")], "gemini", []⟩ "p" 1000 "0.7"
        (fun _ => ProviderResponse.http 503 false "" "unavailable") =
      ⟨.raised (.httpException 503 "unavailable"), 5, [3, 6, 12, 24],
        ⟨[("gemini", some "k")], "gemini", []⟩⟩ :=
  (c1_amended_retry_schedule_and_terminal_error ⟨[("gemini", some "k")], "gemini", []⟩
      "p" "0.7" 1000 rfl (by decide) rfl).1
    (fun _ => ProviderResponse.http 503 false "" "unavailable") 503 false "" "unavailable"
    (Or.inr (Or.inl rfl)) (fun i _ => rfl)

/-! ### C2: classification of provider responses -/

/-- C2 (counterexample): a 502 response is raised as a ServerError
`HTTPException(502, ...)` but is NOT retryable (only 500, 503, 504 are),
refuting "every 5xx response is a ServerError and is retryable"; and a 4xx
response that does carry the success shape is treated as a success, not a
ClientError, refuting "a 4xx response ... is a ClientError". -/
theorem c2_counterexample_classification :
    geminiTry (.http 502 false "" "bad gateway") = .caught (.httpEx 502 "bad gateway") ∧
    is_retryable (.httpEx 502 "bad gateway") = false ∧
    geminiTry (.http 404 true "body" "msg") = .ok "body" := by
  refine ⟨by decide, by decide, by decide⟩

/-- C2 (amended): on the gemini path, a response with status ≥ 500 raises a
ServerError `HTTPException` carrying that status, which is retried exactly
when the status is 500, 503 or 504 (other 5xx such as 501 or 502 are raised
without retry); a response with status < 500 lacking the `"candidates"`
success shape raises `HTTPException(400, "Gemini API Error: ...")`, which is
never retried; a response with status < 500 carrying the success shape is a
success (the code checks the shape, not the 4xx status); transport errors
are always retryable. -/
theorem c2_amended_gemini_classification (status : Nat) (shape : Bool) (text errMsg : String) :
    (500 ≤ status →
      geminiTry (.http status shape text errMsg) = .caught (.httpEx status errMsg) ∧
      (is_retryable (.httpEx status errMsg) = true ↔
        (status = 500 ∨ status = 503 ∨ status = 504))) ∧
    (status < 500 → shape = false →
      geminiTry (.http status shape text errMsg) =
        .caught (.httpEx 400 ("Gemini API Error: " ++ errMsg)) ∧
      is_retryable (.httpEx 400 ("Gemini API Error: " ++ errMsg)) = false) ∧
    (status < 500 → shape = true → geminiTry (.http status shape text errMsg) = .ok text) ∧
    is_retryable (.transportErr errMsg) = true := by
  refine ⟨?_, ?_, ?_, rfl⟩
  · intro h5
    refine ⟨by simp [geminiTry, h5], ?_⟩
    simp only [is_retryable, Bool.or_eq_true, decide_eq_true_eq]
    tauto
  · intro h5 hshape
    subst hshape
    have hn : ¬ (500 ≤ status) := by omega
    exact ⟨by simp [geminiTry, hn], by simp [is_retryable]⟩
  · intro h5 hshape
    subst hshape
    have hn : ¬ (500 ≤ status) := by omega
    simp [geminiTry, hn]

/-- C2 (witness): the amended theorem at status 503 with the success shape
present — classified ServerError and retryable. -/
theorem c2_amended_witness :
    geminiTry (.http 503 true "x" "m") = .caught (.httpEx 503 "m") ∧
    is_retryable (.httpEx 503 "m") = true :=
  ⟨((c2_amended_gemini_classification 503 true "x" "m").1 (by norm_num)).1,
   (((c2_amended_gemini_classification 503 true "x" "m").1 (by norm_num)).2).mpr
     (Or.inr (Or.inl rfl))⟩

/-! ### C3: a ClientError on the first attempt is raised immediately -/

/-- C3: when the first provider call yields a sub-500 response without the
success shape (a ClientError), `generate_content` makes exactly one
provider call, performs no sleep, raises
`HTTPException(400, "Gemini API Error: ...")` immediately without consuming
the remaining retry attempts, and leaves the state unchanged. -/
theorem c3_client_error_single_attempt (st : LLMState) (prompt temp : String) (mt : Nat)
    (responses : Nat → ProviderResponse) (s : Nat) (t m : String)
    (hactive : st.active_provider = "gemini")
    (hconf : providerConfigured st.providers "gemini" = true)
    (hmiss : st.cache.lookup (cache_key "gemini" prompt mt temp) = none)
    (hresp : responses 0 = ProviderResponse.http s false t m)
    (hs : s < 500) :
    generate_content st prompt mt temp responses =
      ⟨.raised (.httpException 400 ("Gemini API Error: " ++ m)), 1, [], st⟩ := by
  have hstep : attemptTry st.active_provider (responses 0) =
      .caught (.httpEx 400 ("Gemini API Error: " ++ m)) := by
    rw [hresp, hactive]
    have : ¬ (500 ≤ s) := by omega
    simp [attemptTry, geminiTry, this]
  have hloop : retryLoop st (cache_key "gemini" prompt mt temp) responses 0 5 =
      ⟨.raised (.httpException 400 ("Gemini API Error: " ++ m)), 1, [], st⟩ := by
    show retryLoop st (cache_key "gemini" prompt mt temp) responses 0 (Nat.succ 4) = _
    simp only [retryLoop, hstep, is_retryable]
    have hcalls : attemptCalls st.active_provider = 1 := by simp [attemptCalls, hactive]
    simp [hcalls, finalRaise]
  simp only [generate_content, hactive, hmiss, hconf, if_true, max_retries]
  rw [hloop]

set_option maxRecDepth 8000 in
/-- C3 (witness): the theorem at a concrete state with a 400 response. -/
theorem c3_witness :
    generate_content ⟨[("gemini", some "k")], "gemini", []⟩ "p" 1000 "0.7"
        (fun _ => ProviderResponse.http 400 false "" "bad") =
      ⟨.raised (.httpException 400 "Gemini API Error: bad"), 1, [],
        ⟨[("gemini", some "k")], "gemini", []⟩⟩ :=
  c3_client_error_single_attempt ⟨[("gemini", some "k")], "gemini", []⟩ "p" "0.7" 1000
    (fun _ => ProviderResponse.http 400 false "" "bad") 400 "" "bad"
    rfl (by decide) rfl rfl (by norm_num)

/-! ### C4: cache TTL expiry -/

set_option maxRecDepth 8000 in
/-- C4 (counterexample): the LLMManager response cache (llm.py:29, a bare
dict) stores no timestamps, so a cached entry is returned no matter how old
it is: a second identical request 7200 s (≥ the default TTL of 3600 s)
after the first still yields the cached text, refuting the claim for this
cache lookup. -/
theorem c4_counterexample_llm_cache_ignores_age :
    llmGenerateAfterDelay 7200 = .text "v" ∧ 3600 ≤ 7200 := by
  refine ⟨by decide, by norm_num⟩

set_option maxRecDepth 8000 in
/-- C4 (amended): the Humanizer cache enforces the TTL — a value is
returned only if its entry is younger than the TTL, and a get on an entry
whose age is at least the TTL behaves as a miss and deletes that entry —
whereas the LLMManager response cache stores no timestamps and returns
entries regardless of their age. -/
theorem c4_amended_ttl_expiry {α : Type} (cache : List (String × α × Nat)) (ttl now : Nat)
    (key : String) :
    (∀ d, (humanizer_get_cache cache ttl now key).1 = some d →
      ∃ ts, cache.lookup key = some (d, ts) ∧ now - ts < ttl) ∧
    (∀ d ts, cache.lookup key = some (d, ts) → ttl ≤ now - ts →
      (humanizer_get_cache cache ttl now key).1 = none ∧
      ((humanizer_get_cache cache ttl now key).2).lookup key = none) ∧
    (∀ age, 3600 ≤ age → llmGenerateAfterDelay age = .text "v") := by
  refine ⟨?_, ?_, ?_⟩
  · intro d hd
    unfold humanizer_get_cache at hd
    rcases hl : cache.lookup key with _ | ⟨d', ts⟩
    · rw [hl] at hd; simp at hd
    · rw [hl] at hd
      dsimp only at hd
      by_cases hage : now - ts < ttl
      · rw [if_pos hage] at hd
        simp at hd
        subst hd
        exact ⟨ts, rfl, hage⟩
      · rw [if_neg hage] at hd; simp at hd
  · intro d ts hl hage
    unfold humanizer_get_cache
    rw [hl]
    dsimp only
    rw [if_neg (by omega)]
    exact ⟨rfl, lookup_eraseKey cache key⟩
  · intro age _
    have hconst : llmGenerateAfterDelay age = llmGenerateAfterDelay 7200 := rfl
    rw [hconst]
    decide

/-- C4 (witness): the amended theorem on a one-entry cache whose entry is
4990 s old with a 3600 s TTL — the get misses and the entry is gone. -/
theorem c4_amended_witness :
    (humanizer_get_cache [("k", ("d", 10))] 3600 5000 "k").1 = (none : Option String) ∧
    ((humanizer_get_cache [("k", ("d", 10))] 3600 5000 "k").2).lookup "k" = none :=
  (c4_amended_ttl_expiry [("k", ("d", 10))] 3600 5000 "k").2.1 "d" 10 rfl (by norm_num)

/-! ### C5: cache deduplication of identical requests -/

/-- C5: when the first call succeeds on its first attempt, two
`generate_content` calls with the same provider, the same `max_tokens` and
`temperature`, and prompts agreeing on their first 100 characters (the only
part of the prompt in the cache fingerprint) issue exactly one provider
call in total: the first call returns the text with one provider call and
caches it, and the second is a cache hit returning the same text with zero
provider calls. -/
theorem c5_second_call_cache_hit (st : LLMState) (p1 p2 temp t m : String) (mt : Nat)
    (resp1 resp2 : Nat → ProviderResponse)
    (hactive : st.active_provider = "gemini")
    (hconf : providerConfigured st.providers "gemini" = true)
    (hmiss : st.cache.lookup (cache_key "gemini" p1 mt temp) = none)
    (hok : resp1 0 = ProviderResponse.http 200 true t m)
    (hpre : p2.take 100 = p1.take 100) :
    (generate_content st p1 mt temp resp1).result = .text t ∧
    (generate_content st p1 mt temp resp1).calls = 1 ∧
    (generate_content (generate_content st p1 mt temp resp1).state p2 mt temp resp2).result =
      .text t ∧
    (generate_content (generate_content st p1 mt temp resp1).state p2 mt temp resp2).calls = 0 := by
  have hstep : attemptTry st.active_provider (resp1 0) = .ok t := by
    rw [hok, hactive]
    simp [attemptTry, geminiTry]
  have h1 : generate_content st p1 mt temp resp1 =
      ⟨.text t, 1, [],
        ⟨st.providers, st.active_provider,
          cacheInsert st.cache (cache_key "gemini" p1 mt temp) t⟩⟩ := by
    have hloop : retryLoop st (cache_key "gemini" p1 mt temp) resp1 0 5 =
        ⟨.text t, 1, [],
          ⟨st.providers, st.active_provider,
            cacheInsert st.cache (cache_key "gemini" p1 mt temp) t⟩⟩ := by
      show retryLoop st (cache_key "gemini" p1 mt temp) resp1 0 (Nat.succ 4) = _
      simp only [retryLoop, hstep]
      simp [attemptCalls, hactive]
    simp only [generate_content, hactive, hmiss, hconf, if_true, max_retries]
    rw [hloop, hactive]
  have hkeys : cache_key "gemini" p2 mt temp = cache_key "gemini" p1 mt temp := by
    simp [cache_key, hpre]
  have h2 : generate_content (generate_content st p1 mt temp resp1).state p2 mt temp resp2 =
      ⟨.text t, 0, [], (generate_content st p1 mt temp resp1).state⟩ := by
    rw [h1]
    have hhit : (cacheInsert st.cache (cache_key "gemini" p1 mt temp) t).lookup
        (cache_key "gemini" p2 mt temp) = some t := by
      rw [hkeys]
      simp [cacheInsert, List.lookup]
    simp only [generate_content, hactive]
    rw [hhit]
  rw [h2, h1]
  exact ⟨rfl, rfl, rfl, rfl⟩

set_option maxRecDepth 8000 in
/-- C5 (witness): the theorem at a concrete state; the second environment
is a transport failure, showing the hit consults no provider at all. -/
theorem c5_witness :
    (generate_content ⟨[("gemini", some "k")], "gemini", []⟩ "p" 1000 "0.7"
        (fun _ => ProviderResponse.http 200 true "v" "")).result = .text "v" ∧
    (generate_content ⟨[("gemini", some "k")], "gemini", []⟩ "p" 1000 "0.7"
        (fun _ => ProviderResponse.http 200 true "v" "")).calls = 1 ∧
    (generate_content (generate_content ⟨[("gemini", some "k")], "gemini", []⟩ "p" 1000 "0.7"
        (fun _ => ProviderResponse.http 200 true "v" "")).state "p" 1000 "0.7"
        (fun _ => ProviderResponse.transport "z")).result = .text "v" ∧
    (generate_content (generate_content ⟨[("gemini", some "k")], "gemini", []⟩ "p" 1000 "0.7"
        (fun _ => ProviderResponse.http 200 true "v" "")).state "p" 1000 "0.7"
        (fun _ => ProviderResponse.transport "z")).calls = 0 :=
  c5_second_call_cache_hit ⟨[("gemini", some "k")], "gemini", []⟩ "p" "p" "0.7" "v" "" 1000
    (fun _ => ProviderResponse.http 200 true "v" "")
    (fun _ => ProviderResponse.transport "z")
    rfl (by decide) rfl rfl rfl

/-! ### C6: refusal detection -/

/-- C6 (counterexample): the configured refusal set (humanizer.py:41-53)
holds Spanish phrases only, so the English candidate
"I\x27m sorry, I cannot help with that." matches no pattern and is NOT
rejected — the response guard accepts it — refuting the claim that it is
rejected regardless of source. -/
theorem c6_counterexample_english_refusal_not_matched :
    isRefusal "I\x27m sorry, I cannot help with that." = false ∧
    humanizeResponseGuard "I\x27m sorry, I cannot help with that." =
      .ok "I\x27m sorry, I cannot help with that." :=
  ⟨by decide, rfl⟩

/-- C6 (amended): refusal detection is a case-insensitive substring match
of the candidate against the configured `REFUSAL_PATTERNS` — a list of
Spanish phrases — and a nonempty candidate matching any pattern makes
humanization fail with the message "LLM refused to process" (surfaced as
the failure reason); a Spanish refusal is rejected, while the English
candidate "I\x27m sorry, I cannot help with that." matches no pattern and
is not rejected. -/
theorem c6_amended_refusal_detection (response : String) :
    (humanizeResponseGuard response = .error "LLM refused to process" ↔
      (pyStrip response ≠ "" ∧ ∃ p ∈ REFUSAL_PATTERNS, p.data <:+: (pyLower response).data)) ∧
    humanizeResponseGuard "Lo siento, no puedo ayudar con eso." =
      .error "LLM refused to process" ∧
    isRefusal "I\x27m sorry, I cannot help with that." = false := by
  refine ⟨?_, by rfl, by decide⟩
  unfold humanizeResponseGuard
  split_ifs with h1 h2
  · constructor
    · intro habs
      injection habs with h
      exact absurd h (by decide)
    · intro hrhs
      exact absurd h1 hrhs.1
  · constructor
    · intro _
      refine ⟨h1, ?_⟩
      have h2' := h2
      unfold isRefusal at h2'
      rw [List.any_eq_true] at h2'
      obtain ⟨p, hp, hin⟩ := h2'
      exact ⟨p, hp, of_decide_eq_true hin⟩
    · intro _
      rfl
  · constructor
    · intro habs
      simp at habs
    · rintro ⟨-, p, hp, hin⟩
      exact absurd
        (by unfold isRefusal; rw [List.any_eq_true]; exact ⟨p, hp, decide_eq_true hin⟩) h2

/-! ### C7: JSON extraction from unfenced model output -/

set_option maxRecDepth 8000 in
/-- C7: on the unfenced input "noise \x7b"a": [1,2]\x7d trailing", the
voice_analyzer extraction (greedy first-brace-to-last-brace, inclusive)
parses the mapping as the claim states; but the platform_agents extraction
at its cited lines uses a lazy group that stops at the FIRST closing brace
and captures the text strictly BETWEEN the braces, so it extracts
`"a": [1,2]` (no braces), whose parse fails ("Extra data"), and the
pipeline falls back to the raw text instead of returning the mapping —
contradicting the adjacent source comment that says it searches the first
and last brace to extract the JSON. -/
theorem c7_extraction_at_failing_input :
    analyze_voice_parse "noise \x7b\"a\": [1,2]\x7d trailing" =
      .obj [("a", .arr [.num 1, .num 2])] ∧
    regexBraceLazyGroup "noise \x7b\"a\": [1,2]\x7d trailing" = some "\"a\": [1,2]" ∧
    json_loads "\"a\": [1,2]" = none ∧
    optimize_for_platform_parse "noise \x7b\"a\": [1,2]\x7d trailing" =
      .ok (.str "noise \x7b\"a\": [1,2]\x7d trailing", .str "Fallo al decodificar JSON") :=
  ⟨rfl, rfl, rfl, rfl⟩

/-! ### C8: validation fallback when the source has no key terms -/

/-- C8 (counterexample): a source of eight two-letter words has no key
terms, and a candidate sharing exactly four of its eight words has general
overlap exactly 1/2 — it MEETS the default min_overlap threshold of 0.5 —
yet `_is_valid_output` rejects it, because the no-key-terms fallback
(humanizer.py:365) uses the strict comparison overlap > min_overlap. -/
theorem c8_counterexample_equal_overlap_rejected :
    is_valid_output (3/5) (1/2) (7/10) "la de el en no si es un" "la de el en xx yy zz ww" =
      false ∧
    extract_key_terms "la de el en no si es un" = [] ∧
    2 * interCard (wordSet "la de el en no si es un") (wordSet "la de el en xx yy zz ww") =
      (wordSet "la de el en no si es un").length := by
  refine ⟨?_, by decide, by decide⟩
  unfold is_valid_output
  dsimp only
  rw [show extract_key_terms "la de el en no si es un" = [] from by decide]
  rw [if_neg (show ¬ pyStrip "la de el en xx yy zz ww" = "" from by decide)]
  rw [if_pos (show 0 < ("la de el en no si es un").length from by decide)]
  rw [if_neg (show ¬ ((("la de el en xx yy zz ww").length : ℚ) /
      (("la de el en no si es un").length : ℚ) < 3/5) from by
    rw [show ("la de el en xx yy zz ww").length = 23 from by decide,
        show ("la de el en no si es un").length = 23 from by decide]
    norm_num)]
  rw [if_neg (show ¬ wordSet "la de el en no si es un" = [] from by decide)]
  rw [show interCard (wordSet "la de el en no si es un") (wordSet "la de el en xx yy zz ww") = 4
      from by decide]
  rw [show (wordSet "la de el en no si es un").length = 8 from by decide]
  rw [if_neg (show ¬ (((4:Nat):ℚ)/((8:Nat):ℚ) < 1/2) from by push_cast; norm_num)]
  rw [if_pos rfl]
  rw [show (decide ((1:ℚ)/2 < ((4:Nat):ℚ)/((8:Nat):ℚ))) = false from by
    rw [decide_eq_false_iff_not]
    push_cast
    norm_num]

/-- C8 (amended): when the source has no key terms after filtering,
`_is_valid_output` with the default thresholds accepts the candidate
exactly when it is nonempty after stripping, its length is at least 0.6 of
the source length, the source word set is nonempty, and the general overlap
ratio STRICTLY exceeds min_overlap = 1/2 (stated by cross-multiplication:
|source words| < 2·|intersection|); a ratio exactly equal to the threshold
is rejected. -/
theorem c8_amended_fallback_strict_overlap (original humanized : String)
    (hkeys : extract_key_terms original = []) :
    (is_valid_output (3/5) (1/2) (7/10) original humanized = true ↔
      (pyStrip humanized ≠ "" ∧
       3 * original.length ≤ 5 * humanized.length ∧
       wordSet original ≠ [] ∧
       (wordSet original).length < 2 * interCard (wordSet original) (wordSet humanized))) := by
  unfold is_valid_output
  dsimp only
  rw [hkeys]
  by_cases h1 : pyStrip humanized = ""
  · rw [if_pos h1]; simp [h1]
  rw [if_neg h1]
  by_cases hws : wordSet original = []
  · by_cases hr : (if 0 < original.length then
        ((humanized.length : ℚ) / (original.length : ℚ)) else 0) < 3/5
    · rw [if_pos hr]; simp [hws]
    · rw [if_neg hr, if_pos hws]; simp [hws]
  have holen : 0 < original.length := len_pos_of_wordSet_ne original hws
  rw [if_pos holen]
  have hoq : (0:ℚ) < (original.length : ℚ) := by exact_mod_cast holen
  have hwop : 0 < (wordSet original).length := List.length_pos.mpr hws
  have hwoq : (0:ℚ) < ((wordSet original).length : ℚ) := by exact_mod_cast hwop
  by_cases h2 : (humanized.length : ℚ) / (original.length : ℚ) < 3/5
  · rw [if_pos h2]
    simp only [Bool.false_eq_true, false_iff]
    rintro ⟨-, hlen, -, -⟩
    rw [div_lt_div_iff₀ hoq (by norm_num)] at h2
    have hq : (3:ℚ) * (original.length : ℚ) ≤ 5 * (humanized.length : ℚ) := by
      exact_mod_cast hlen
    linarith
  rw [if_neg h2, if_neg hws]
  by_cases h4 : (interCard (wordSet original) (wordSet humanized) : ℚ) /
      ((wordSet original).length : ℚ) < 1/2
  · rw [if_pos h4]
    simp only [Bool.false_eq_true, false_iff]
    rintro ⟨-, -, -, hover⟩
    rw [div_lt_div_iff₀ hwoq (by norm_num)] at h4
    have hq : ((wordSet original).length : ℚ) <
        2 * (interCard (wordSet original) (wordSet humanized) : ℚ) := by
      exact_mod_cast hover
    linarith
  rw [if_neg h4, if_pos rfl, decide_eq_true_eq]
  constructor
  · intro hlt
    refine ⟨h1, ?_, hws, ?_⟩
    · push_neg at h2
      rw [div_le_div_iff₀ (by norm_num) hoq] at h2
      have hq : (3:ℚ) * (original.length : ℚ) ≤ 5 * (humanized.length : ℚ) := by linarith
      exact_mod_cast hq
    · rw [div_lt_div_iff₀ (by norm_num) hwoq] at hlt
      have hq : ((wordSet original).length : ℚ) <
          2 * (interCard (wordSet original) (wordSet humanized) : ℚ) := by linarith
      exact_mod_cast hq
  · rintro ⟨-, -, -, hover⟩
    rw [div_lt_div_iff₀ (by norm_num) hwoq]
    have hq : ((wordSet original).length : ℚ) <
        2 * (interCard (wordSet original) (wordSet humanized) : ℚ) := by exact_mod_cast hover
    linarith

/-- C8 (witness): the amended theorem on a stopword-only source identical
to its candidate — overlap 1 strictly exceeds 1/2, so it is accepted. -/
theorem c8_amended_witness :
    is_valid_output (3/5) (1/2) (7/10) "el la si no" "el la si no" = true :=
  (c8_amended_fallback_strict_overlap "el la si no" "el la si no" (by decide)).mpr
    ⟨by decide, by decide, by decide, by decide⟩

/-! ### C9: the provider-switch operation -/

/-- C9: the `switch_provider` function object itself behaves as the claim
says — a registered name becomes the active provider and an unregistered
name raises ValueError("Unknown provider: ...") — but it is NOT exposed on
the public interface: the `def` at llm.py:170 sits inside the body of
`generate_content`, so the class binds only `__init__` and
`generate_content`, and the call `llm_manager.switch_provider(provider)` at
main.py:243 raises AttributeError. -/
theorem c9_switch_provider_nested_behavior :
    "switch_provider" ∉ llmManagerClassMethods ++ llmManagerInstanceAttrs ∧
    switch_provider ["gemini", "openai", "anthropic"] "openai" = .ok "openai" ∧
    switch_provider ["gemini", "openai", "anthropic"] "mistral" =
      .error "Unknown provider: mistral" := by
  refine ⟨by decide, rfl, rfl⟩

/-! ### C10: the anthropic provider can never produce text -/

/-- C10: with the registered provider "anthropic" active (credential
configured) and an empty cache, `generate_content` never returns text for
ANY provider behaviour: the request-building dispatch handles only
"gemini" and "openai", so no HTTP request is issued (0 calls), the success
path reaches the cache-store line with `content` unassigned and raises an
uncaught UnboundLocalError, and nothing is written to the cache. -/
theorem c10_anthropic_unbound_content (prompt temperature : String) (mt : Nat)
    (responses : Nat → ProviderResponse) :
    generate_content ⟨[("gemini", some "gk"), ("openai", some "ok"), ("anthropic", some "ak")],
        "anthropic", []⟩ prompt mt temperature responses =
      ⟨.raised (.unboundLocalError "content"), 0, [],
        ⟨[("gemini", some "gk"), ("openai", some "ok"), ("anthropic", some "ak")],
          "anthropic", []⟩⟩ := rfl
